import Mathlib

/-!
Verification of the runtime cache router configured by this repository's
service worker (`src/app/sw.ts`, plus the variant emitted by `src/init.sh`).

The repository authors only the *configuration*: an ordered list of
(matcher, strategy, policy) rules handed to the Serwist router.  The matchers
and option records below are translated directly from `src/app/sw.ts`.  The
strategy execution engine itself (CacheFirst / NetworkFirst /
StaleWhileRevalidate / NetworkOnly dispatch, expiration, the offline
fallback) lives in the third-party library and is modelled here from the
specification's description of the configured behavior.
-/

/-- Character-exact prefix test on lists of characters. -/
def charsPre : List Char → List Char → Bool
  | [], _ => true
  | _ :: _, [] => false
  | a :: as, b :: bs => a == b && charsPre as bs

/-- ASCII-lowercase a character code, as JavaScript's case-insensitive
regex flag `i` does for ASCII letters. -/
def lowerCode (n : Nat) : Nat :=
  if 65 ≤ n ∧ n ≤ 90 then n + 32 else n

/-- Case-insensitive character equality (ASCII). -/
def charIEq (a b : Char) : Bool :=
  lowerCode a.toNat == lowerCode b.toNat

/-- Case-insensitive prefix test on lists of characters. -/
def charsPreI : List Char → List Char → Bool
  | [], _ => true
  | _ :: _, [] => false
  | a :: as, b :: bs => charIEq a b && charsPreI as bs

/-- `strStarts s p` : does `s` start with `p` (case sensitive)?
Models `String.prototype.startsWith` from the source matchers. -/
def strStarts (s p : String) : Bool :=
  charsPre p.data s.data

/-- Case-insensitive variant, modelling an `i`-flagged anchored regex. -/
def strStartsI (s p : String) : Bool :=
  charsPreI p.data s.data

/-- `strEnds s p` : does `s` end with `p` (case sensitive)?
Models a case-sensitive regex of the form `\.(ext)$` tested on a pathname. -/
def strEnds (s p : String) : Bool :=
  charsPre p.data.reverse s.data.reverse

/-- A URL as the matchers see it: its origin, its pathname, and the full
href the regex-based rules are tested against. -/
structure Url where
  origin : String
  pathname : String
  href : String
deriving DecidableEq, Repr

/-- An incoming request: its URL, its destination type (e.g. `"document"`,
`"script"`, `"image"`) and its mode (e.g. `"navigate"`). -/
structure Request where
  url : Url
  destination : String
  mode : String
deriving DecidableEq, Repr

/-- The four caching strategies that appear in the configuration. -/
inductive Handler where
  | CacheFirst
  | NetworkFirst
  | StaleWhileRevalidate
  | NetworkOnly
deriving DecidableEq, Repr

/-- Expiration policy of a rule (`maxEntries` LRU bound and
`maxAgeSeconds`), from the `expiration` option blocks in `src/app/sw.ts`. -/
structure Expiration where
  maxEntries : Nat
  maxAgeSeconds : Nat
deriving DecidableEq, Repr

/-- One runtime-caching rule: matcher, strategy and policy.  The matcher
receives `self.location.origin` and the request, as the source closures do. -/
structure Rule where
  matcher : String → Request → Bool
  handler : Handler
  cacheName : String
  networkTimeoutSeconds : Option Nat
  expiration : Option Expiration
  cacheableStatuses : Option (List Nat)

/-- Matcher of the `google-fonts` rule:
`/^https:\/\/fonts\.(?:googleapis|gstatic)\.com\/.*/i` tested on the URL. -/
def googleFontsMatcher (req : Request) : Bool :=
  strStartsI req.url.href "https://fonts.googleapis.com/" ||
  strStartsI req.url.href "https://fonts.gstatic.com/"

/-- Matcher of the `jsdelivr` rule:
`/^https:\/\/cdn\.jsdelivr\.net\/.*/i` tested on the URL. -/
def jsdelivrMatcher (req : Request) : Bool :=
  strStartsI req.url.href "https://cdn.jsdelivr.net/"

/-- Matcher of the `api-cache` rule, from `src/app/sw.ts` lines 43-51:
same-origin check, then exclude `/api/auth/*`, then include `/api/*`. -/
def apiCacheMatcher (selfOrigin : String) (req : Request) : Bool :=
  let isSameOrigin := selfOrigin == req.url.origin
  if !isSameOrigin then false
  else
    let pathname := req.url.pathname
    if strStarts pathname "/api/auth/" then false
    else if strStarts pathname "/api/" then true
    else false

/-- Matcher of the `images` rule, from `src/app/sw.ts` lines 66-73:
same-origin check and the case-sensitive extension regex
`/\.(png|jpg|jpeg|svg|gif|webp|avif)$/` tested on the pathname. -/
def imagesMatcher (selfOrigin : String) (req : Request) : Bool :=
  let isSameOrigin := selfOrigin == req.url.origin
  if !isSameOrigin then false
  else
    let pathname := req.url.pathname
    let isImage := strEnds pathname ".png" || strEnds pathname ".jpg" ||
      strEnds pathname ".jpeg" || strEnds pathname ".svg" ||
      strEnds pathname ".gif" || strEnds pathname ".webp" ||
      strEnds pathname ".avif"
    isImage

/-- The `google-fonts` rule record from `src/app/sw.ts`. -/
def googleFontsRule : Rule :=
  { matcher := fun _ req => googleFontsMatcher req
    handler := Handler.CacheFirst
    cacheName := "google-fonts"
    networkTimeoutSeconds := none
    expiration := some { maxEntries := 10, maxAgeSeconds := 60 * 60 * 24 * 365 }
    cacheableStatuses := none }

/-- The `jsdelivr` rule record from `src/app/sw.ts`. -/
def jsdelivrRule : Rule :=
  { matcher := fun _ req => jsdelivrMatcher req
    handler := Handler.CacheFirst
    cacheName := "jsdelivr"
    networkTimeoutSeconds := none
    expiration := some { maxEntries := 10, maxAgeSeconds := 60 * 60 * 24 * 365 }
    cacheableStatuses := none }

/-- The `api-cache` rule record from `src/app/sw.ts`. -/
def apiCacheRule : Rule :=
  { matcher := apiCacheMatcher
    handler := Handler.NetworkFirst
    cacheName := "api-cache"
    networkTimeoutSeconds := some 3
    expiration := some { maxEntries := 50, maxAgeSeconds := 60 * 5 }
    cacheableStatuses := some [0, 200] }

/-- The `images` rule record from `src/app/sw.ts`. -/
def imagesRule : Rule :=
  { matcher := imagesMatcher
    handler := Handler.CacheFirst
    cacheName := "images"
    networkTimeoutSeconds := none
    expiration := some { maxEntries := 100, maxAgeSeconds := 60 * 60 * 24 * 30 }
    cacheableStatuses := none }

/-- The repository-authored `runtimeCaching` list of `src/app/sw.ts`, in
declaration order.  The `...defaultCache` rules spread before these come from
the external `@serwist/next` package; the spec treats that library content
as an out-of-scope collaborator, so the configured rule set verified here is
the list the repository itself declares. -/
def runtimeCaching : List Rule :=
  [googleFontsRule, jsdelivrRule, apiCacheRule, imagesRule]

/-- First-match-wins rule selection: iterate rules in declaration order and
return the first whose matcher accepts the request; `none` means default
pass-through to the network. -/
def matchRule (selfOrigin : String) (req : Request) : List Rule → Option Rule
  | [] => none
  | r :: rs => if r.matcher selfOrigin req then some r else matchRule selfOrigin req rs

/-- The observable classification of a request: either no rule matched
(pass-through) or the handler and cache name of the winning rule. -/
inductive Classification where
  | noMatch
  | matched (handler : Handler) (cacheName : String)
deriving DecidableEq, Repr

/-- Classify a request against the configured `runtimeCaching` rules. -/
def classify (selfOrigin : String) (req : Request) : Classification :=
  match matchRule selfOrigin req runtimeCaching with
  | none => Classification.noMatch
  | some r => Classification.matched r.handler r.cacheName

/-- An HTTP-like response: its status code and an abstract body. -/
structure Response where
  status : Nat
  body : String
deriving DecidableEq, Repr

/-- A cache entry: the stored response and its insertion time (seconds),
as the data model's `(request key, response bytes, insertion time)`. -/
structure Entry where
  response : Response
  insertedAt : Nat
deriving DecidableEq, Repr

/-- Persistent cache storage, keyed by `(cache name, request key)`, newest
entries first. -/
abbrev CacheState : Type := List ((String × String) × Entry)

/-- How the network behaves on a given request: it responds after `delay`
seconds, it fails, or it never responds. -/
inductive NetBehavior where
  | responds (delay : Nat) (r : Response)
  | fails
  | never
deriving DecidableEq, Repr

/-- The network, as a black-box collaborator: each request gets a behavior. -/
def Net : Type := Request → NetBehavior

/-- The request key under which a response is cached: its full URL. -/
def keyOf (req : Request) : String := req.url.href

/-- Look up the entry stored for `key` in the cache named `name`. -/
def lookupEntry (name key : String) : CacheState → Option Entry
  | [] => none
  | ((n, k), e) :: rest =>
    if n == name && k == key then some e else lookupEntry name key rest

/-- Remove any entry stored for `key` in the cache named `name`. -/
def removeEntry (name key : String) (c : CacheState) : CacheState :=
  c.filter (fun p => !(p.1.1 == name && p.1.2 == key))

/-- Keep at most `n` (the newest) entries of the cache named `name`,
evicting the oldest beyond that bound; other caches are untouched.
Models the `maxEntries` LRU-by-count eviction. -/
def trimCache (name : String) : Nat → CacheState → CacheState
  | _, [] => []
  | n, p :: rest =>
    if p.1.1 == name then
      match n with
      | 0 => trimCache name 0 rest
      | Nat.succ m => p :: trimCache name m rest
    else p :: trimCache name n rest

/-- Store an entry in the named cache, replacing any previous entry for the
same key and applying the rule's `maxEntries` eviction. -/
def cachePut (exp : Option Expiration) (name key : String) (e : Entry)
    (c : CacheState) : CacheState :=
  let c1 := ((name, key), e) :: removeEntry name key c
  match exp with
  | none => c1
  | some ex => trimCache name ex.maxEntries c1

/-- Is a cache entry unexpired at time `now` under the rule's
`maxAgeSeconds` policy? -/
def unexpired (exp : Option Expiration) (now : Nat) (e : Entry) : Bool :=
  match exp with
  | none => true
  | some ex => now - e.insertedAt ≤ ex.maxAgeSeconds

/-- A plain network fetch with no time bound: a behavior that responds
yields its response; failure or a hang yields no response. -/
def netFetch (net : Net) (req : Request) : Option Response :=
  match net req with
  | NetBehavior.responds _ r => some r
  | NetBehavior.fails => none
  | NetBehavior.never => none

/-- A network fetch bounded by an optional `networkTimeoutSeconds`: a
response arriving after the bound counts as a timeout. -/
def netFetchTimeout (net : Net) (bound : Option Nat) (req : Request) :
    Option Response :=
  match net req with
  | NetBehavior.responds d r =>
    match bound with
    | none => some r
    | some t => if d ≤ t then some r else none
  | NetBehavior.fails => none
  | NetBehavior.never => none

/-- Does the rule's `cacheableResponse.statuses` filter admit status `s`?
No filter admits everything. -/
def statusAllowed (filter : Option (List Nat)) (s : Nat) : Bool :=
  match filter with
  | none => true
  | some l => l.contains s

/-- The outcome of routing one request: the response (`none` = the failure
propagates to the caller), the updated cache storage, which cache names
were read and written, and whether a network fetch was issued. -/
structure RouteResult where
  response : Option Response
  cache : CacheState
  reads : List String
  writes : List String
  fetched : Bool

/-- Store a fetched response in the rule's cache when its status passes the
rule's `cacheableResponse` filter; otherwise leave the cache unchanged. -/
def storeIfAllowed (rule : Rule) (now : Nat) (r : Response) (key : String)
    (c : CacheState) : CacheState × List String :=
  if statusAllowed rule.cacheableStatuses r.status then
    (cachePut rule.expiration rule.cacheName key ⟨r, now⟩ c, [rule.cacheName])
  else (c, [])

/-- Modelled from the spec: the strategy execution engine (`execute` of the
Cache Router, section 4.1), which is library code not present in this
repository.  CacheFirst returns a present unexpired entry without touching
the network, else fetches and stores; NetworkFirst attempts a fetch bounded
by `networkTimeoutSeconds`, stores and returns on success, else falls back
to the cached entry if present, else errors; StaleWhileRevalidate returns a
present entry immediately while a background fetch refreshes the cache, and
waits for the network once when no entry is present; NetworkOnly always
fetches and never reads or writes any cache. -/
def execute (rule : Rule) (net : Net) (now : Nat) (c : CacheState)
    (req : Request) : RouteResult :=
  let key := keyOf req
  match rule.handler with
  | Handler.CacheFirst =>
    match lookupEntry rule.cacheName key c with
    | some e =>
      if unexpired rule.expiration now e then
        { response := some e.response, cache := c,
          reads := [rule.cacheName], writes := [], fetched := false }
      else
        match netFetch net req with
        | some r =>
          let s := storeIfAllowed rule now r key c
          { response := some r, cache := s.1,
            reads := [rule.cacheName], writes := s.2, fetched := true }
        | none =>
          { response := none, cache := c,
            reads := [rule.cacheName], writes := [], fetched := true }
    | none =>
      match netFetch net req with
      | some r =>
        let s := storeIfAllowed rule now r key c
        { response := some r, cache := s.1,
          reads := [rule.cacheName], writes := s.2, fetched := true }
      | none =>
        { response := none, cache := c,
          reads := [rule.cacheName], writes := [], fetched := true }
  | Handler.NetworkFirst =>
    match netFetchTimeout net rule.networkTimeoutSeconds req with
    | some r =>
      let s := storeIfAllowed rule now r key c
      { response := some r, cache := s.1,
        reads := [], writes := s.2, fetched := true }
    | none =>
      match lookupEntry rule.cacheName key c with
      | some e =>
        { response := some e.response, cache := c,
          reads := [rule.cacheName], writes := [], fetched := true }
      | none =>
        { response := none, cache := c,
          reads := [rule.cacheName], writes := [], fetched := true }
  | Handler.StaleWhileRevalidate =>
    match lookupEntry rule.cacheName key c with
    | some e =>
      match netFetch net req with
      | some r =>
        let s := storeIfAllowed rule now r key c
        { response := some e.response, cache := s.1,
          reads := [rule.cacheName], writes := s.2, fetched := true }
      | none =>
        { response := some e.response, cache := c,
          reads := [rule.cacheName], writes := [], fetched := true }
    | none =>
      match netFetch net req with
      | some r =>
        let s := storeIfAllowed rule now r key c
        { response := some r, cache := s.1,
          reads := [rule.cacheName], writes := s.2, fetched := true }
      | none =>
        { response := none, cache := c,
          reads := [rule.cacheName], writes := [], fetched := true }
  | Handler.NetworkOnly =>
    match netFetch net req with
    | some r =>
      { response := some r, cache := c, reads := [], writes := [], fetched := true }
    | none =>
      { response := none, cache := c, reads := [], writes := [], fetched := true }

/-- The designated offline fallback document precached under `/offline`. -/
def offlineResponse : Response := { status := 200, body := "offline-document" }

/-- The fallback entry's matcher from `src/app/sw.ts` lines 83-91:
`({ request }) => request.destination === "document"`. -/
def fallbackMatches (req : Request) : Bool := req.destination == "document"

/-- Modelled from the spec: when a strategy fails and the configured
fallback entry's matcher accepts the request, the offline fallback document
is substituted for the failure (library behavior configured by the
`fallbacks` block of `src/app/sw.ts`). -/
def applyFallback (req : Request) (r : RouteResult) : RouteResult :=
  match r.response with
  | some _ => r
  | none =>
    if fallbackMatches req then { r with response := some offlineResponse } else r

/-- Modelled from the spec: default pass-through to the network for a
request no rule matches (effectively NetworkOnly: no cache is read or
written). -/
def passThrough (net : Net) (c : CacheState) (req : Request) : RouteResult :=
  match netFetch net req with
  | some r =>
    { response := some r, cache := c, reads := [], writes := [], fetched := true }
  | none =>
    { response := none, cache := c, reads := [], writes := [], fetched := true }

/-- The Cache Router on one request: select the first matching rule of the
configured `runtimeCaching` list, execute its strategy, and apply the
configured offline fallback to a failure. -/
def route (selfOrigin : String) (net : Net) (now : Nat) (c : CacheState)
    (req : Request) : RouteResult :=
  applyFallback req
    (match matchRule selfOrigin req runtimeCaching with
     | some rule => execute rule net now c req
     | none => passThrough net c req)

/-- Route a sequence of timed requests, threading the cache storage and
accumulating every cache name read and written along the way. -/
def routeAll (selfOrigin : String) (net : Net) (c : CacheState) :
    List (Request × Nat) → CacheState × List String × List String
  | [] => (c, [], [])
  | (req, t) :: rest =>
    let r := route selfOrigin net t c req
    let rec2 := routeAll selfOrigin net r.cache rest
    (rec2.1, r.reads ++ rec2.2.1, r.writes ++ rec2.2.2)

/-- Matcher of the `pages` route from the `src/init.sh` service-worker
template: `({ request }) => request.mode === "navigate"`. -/
def pagesMatcher (req : Request) : Bool := req.mode == "navigate"

/-- Matcher of the `static-resources` route from `src/init.sh`:
`request.destination === "script" || request.destination === "style"`. -/
def staticResourcesMatcher (req : Request) : Bool :=
  req.destination == "script" || req.destination == "style"

/-- Matcher of the `images` route from `src/init.sh`:
`request.destination === "image"`. -/
def swTemplateImagesMatcher (req : Request) : Bool := req.destination == "image"

/-- The `pages` NetworkFirst route registered by `src/init.sh`. -/
def pagesRule : Rule :=
  { matcher := fun _ req => pagesMatcher req
    handler := Handler.NetworkFirst
    cacheName := "pages"
    networkTimeoutSeconds := none
    expiration := some { maxEntries := 10, maxAgeSeconds := 60 * 60 * 24 * 30 }
    cacheableStatuses := none }

/-- The `static-resources` StaleWhileRevalidate route registered by
`src/init.sh`. -/
def staticResourcesRule : Rule :=
  { matcher := fun _ req => staticResourcesMatcher req
    handler := Handler.StaleWhileRevalidate
    cacheName := "static-resources"
    networkTimeoutSeconds := none
    expiration := some { maxEntries := 60, maxAgeSeconds := 60 * 60 * 24 * 30 }
    cacheableStatuses := none }

/-- The `images` CacheFirst route registered by `src/init.sh`. -/
def swTemplateImagesRule : Rule :=
  { matcher := fun _ req => swTemplateImagesMatcher req
    handler := Handler.CacheFirst
    cacheName := "images"
    networkTimeoutSeconds := none
    expiration := some { maxEntries := 100, maxAgeSeconds := 60 * 60 * 24 * 30 }
    cacheableStatuses := none }

/-- The ordered route list registered by the `src/init.sh` service-worker
template (`registerRoute` calls, in registration order). -/
def registeredRoutes : List Rule :=
  [pagesRule, staticResourcesRule, swTemplateImagesRule]

theorem applyFallback_reads (req : Request) (r : RouteResult) :
    (applyFallback req r).reads = r.reads := by
  unfold applyFallback
  split
  · rfl
  · split <;> rfl

theorem applyFallback_writes (req : Request) (r : RouteResult) :
    (applyFallback req r).writes = r.writes := by
  unfold applyFallback
  split
  · rfl
  · split <;> rfl

theorem applyFallback_cache (req : Request) (r : RouteResult) :
    (applyFallback req r).cache = r.cache := by
  unfold applyFallback
  split
  · rfl
  · split <;> rfl

theorem execute_reads_eq (rule : Rule) (net : Net) (now : Nat) (c : CacheState)
    (req : Request) :
    ∀ x ∈ (execute rule net now c req).reads, x = rule.cacheName := by
  unfold execute
  cases rule.handler <;> dsimp only <;> (repeat' split) <;> simp_all

theorem execute_writes_eq (rule : Rule) (net : Net) (now : Nat) (c : CacheState)
    (req : Request) :
    ∀ x ∈ (execute rule net now c req).writes, x = rule.cacheName := by
  unfold execute storeIfAllowed
  cases rule.handler <;> dsimp only <;> (repeat' split) <;> simp_all

theorem apiCacheMatcher_auth_false (selfOrigin : String) (req : Request)
    (hp : strStarts req.url.pathname "/api/auth/" = true) :
    apiCacheMatcher selfOrigin req = false := by
  simp [apiCacheMatcher, hp]

theorem route_auth_step (selfOrigin : String) (net : Net) (now : Nat)
    (c : CacheState) (req : Request)
    (hp : strStarts req.url.pathname "/api/auth/" = true) :
    "api-cache" ∉ (route selfOrigin net now c req).reads ∧
    "api-cache" ∉ (route selfOrigin net now c req).writes := by
  have hapi := apiCacheMatcher_auth_false selfOrigin req hp
  unfold route
  rw [applyFallback_reads, applyFallback_writes]
  by_cases hg : googleFontsMatcher req = true
  · simp only [matchRule, runtimeCaching, googleFontsRule, hg, if_true]
    constructor
    · intro hmem
      have := execute_reads_eq _ net now c req _ hmem
      simp_all [googleFontsRule]
    · intro hmem
      have := execute_writes_eq _ net now c req _ hmem
      simp_all [googleFontsRule]
  · by_cases hj : jsdelivrMatcher req = true
    · simp only [matchRule, runtimeCaching, googleFontsRule, jsdelivrRule,
        Bool.not_eq_true] at *
      simp only [hg, hj, if_true, Bool.false_eq_true, if_false]
      constructor
      · intro hmem
        have := execute_reads_eq _ net now c req _ hmem
        simp_all [jsdelivrRule]
      · intro hmem
        have := execute_writes_eq _ net now c req _ hmem
        simp_all [jsdelivrRule]
    · by_cases hi : imagesMatcher selfOrigin req = true
      · simp only [matchRule, runtimeCaching, googleFontsRule, jsdelivrRule,
          apiCacheRule, imagesRule, Bool.not_eq_true] at *
        simp only [hg, hj, hi, hapi, if_true, Bool.false_eq_true, if_false]
        constructor
        · intro hmem
          have := execute_reads_eq _ net now c req _ hmem
          simp_all [imagesRule]
        · intro hmem
          have := execute_writes_eq _ net now c req _ hmem
          simp_all [imagesRule]
      · simp only [matchRule, runtimeCaching, googleFontsRule, jsdelivrRule,
          apiCacheRule, imagesRule, Bool.not_eq_true] at *
        simp only [hg, hj, hi, hapi, Bool.false_eq_true, if_false]
        unfold passThrough
        split <;> simp

/-- Origin of the application in the concrete scenarios below. -/
def demoOrigin : String := "https://app.example"

/-- A same-origin request to `/api/auth/login`. -/
def authLoginReq : Request :=
  { url := { origin := "https://app.example", pathname := "/api/auth/login",
             href := "https://app.example/api/auth/login" }
    destination := "", mode := "" }

/-- A same-origin request to `/api/users`. -/
def apiUsersReq : Request :=
  { url := { origin := "https://app.example", pathname := "/api/users",
             href := "https://app.example/api/users" }
    destination := "", mode := "" }

/-- A network on which every fetch fails. -/
def failNet : Net := fun _ => NetBehavior.fails

/-- A network that never responds. -/
def hangNet : Net := fun _ => NetBehavior.never

/-- A network answering every request with `r` after one second. -/
def okNet (r : Response) : Net := fun _ => NetBehavior.responds 1 r

/-- C2: for every same-origin request whose pathname starts with
`/api/auth/`, and for every sequence of such requests, the router never
reads from and never writes to the cache named `api-cache`. -/
theorem c2_auth_paths_never_touch_api_cache (selfOrigin : String) (net : Net)
    (c : CacheState) (reqs : List (Request × Nat))
    (h : ∀ p ∈ reqs, p.1.url.origin = selfOrigin ∧
      strStarts p.1.url.pathname "/api/auth/" = true) :
    "api-cache" ∉ (routeAll selfOrigin net c reqs).2.1 ∧
    "api-cache" ∉ (routeAll selfOrigin net c reqs).2.2 := by
  induction reqs generalizing c with
  | nil => simp [routeAll]
  | cons p rest ih =>
    obtain ⟨req, t⟩ := p
    have hp := h (req, t) (by simp)
    have hstep := route_auth_step selfOrigin net t c req hp.2
    have hrest := ih (route selfOrigin net t c req).cache
      (fun q hq => h q (by simp [hq]))
    simp only [routeAll]
    constructor
    · intro hmem
      rcases List.mem_append.mp hmem with hA | hB
      · exact hstep.1 hA
      · exact hrest.1 hB
    · intro hmem
      rcases List.mem_append.mp hmem with hA | hB
      · exact hstep.2 hA
      · exact hrest.2 hB

/-- Witness for C2 at a concrete same-origin `/api/auth/login` request. -/
theorem c2_auth_paths_never_touch_api_cache_witness :
    (∀ p ∈ [(authLoginReq, 0)], p.1.url.origin = demoOrigin ∧
      strStarts p.1.url.pathname "/api/auth/" = true) ∧
    ("api-cache" ∉ (routeAll demoOrigin failNet [] [(authLoginReq, 0)]).2.1 ∧
     "api-cache" ∉ (routeAll demoOrigin failNet [] [(authLoginReq, 0)]).2.2) :=
  ⟨by decide, c2_auth_paths_never_touch_api_cache demoOrigin failNet []
    [(authLoginReq, 0)] (by decide)⟩

/-- C1: rule matchers are tried in declaration order with first match
winning; under the configured rule set a same-origin `/api/auth/login`
request is classified as no match (pass-through to the network) and a
same-origin `/api/users` request as NetworkFirst with the `api-cache`. -/
theorem c1_rule_ordering_first_match_wins (selfOrigin : String)
    (req1 req2 : Request)
    (h1o : req1.url.origin = selfOrigin)
    (h1p : req1.url.pathname = "/api/auth/login")
    (h1g : googleFontsMatcher req1 = false) (h1j : jsdelivrMatcher req1 = false)
    (h2o : req2.url.origin = selfOrigin)
    (h2p : req2.url.pathname = "/api/users")
    (h2g : googleFontsMatcher req2 = false) (h2j : jsdelivrMatcher req2 = false) :
    (∀ (r : Rule) (rs : List Rule) (req : Request),
      matchRule selfOrigin req (r :: rs) =
        if r.matcher selfOrigin req then some r else matchRule selfOrigin req rs) ∧
    classify selfOrigin req1 = Classification.noMatch ∧
    classify selfOrigin req2 = Classification.matched Handler.NetworkFirst "api-cache" := by
  refine ⟨fun r rs req => rfl, ?_, ?_⟩
  · have hapi : apiCacheMatcher selfOrigin req1 = false := by
      apply apiCacheMatcher_auth_false
      rw [h1p]
      decide
    have himg : imagesMatcher selfOrigin req1 = false := by
      simp only [imagesMatcher, h1p]
      split
      · rfl
      · decide
    simp [classify, matchRule, runtimeCaching, googleFontsRule, jsdelivrRule,
      apiCacheRule, imagesRule, h1g, h1j, hapi, himg]
  · have hapi : apiCacheMatcher selfOrigin req2 = true := by
      simp only [apiCacheMatcher, h2o, h2p]
      simp
      decide
    simp [classify, matchRule, runtimeCaching, googleFontsRule, jsdelivrRule,
      apiCacheRule, h2g, h2j, hapi]

/-- Witness for C1 at the concrete `/api/auth/login` and `/api/users`
requests against the application origin. -/
theorem c1_rule_ordering_first_match_wins_witness :
    (authLoginReq.url.origin = demoOrigin ∧
     authLoginReq.url.pathname = "/api/auth/login" ∧
     googleFontsMatcher authLoginReq = false ∧
     jsdelivrMatcher authLoginReq = false ∧
     apiUsersReq.url.origin = demoOrigin ∧
     apiUsersReq.url.pathname = "/api/users" ∧
     googleFontsMatcher apiUsersReq = false ∧
     jsdelivrMatcher apiUsersReq = false) ∧
    (classify demoOrigin authLoginReq = Classification.noMatch ∧
     classify demoOrigin apiUsersReq =
       Classification.matched Handler.NetworkFirst "api-cache") :=
  ⟨by decide,
   (c1_rule_ordering_first_match_wins demoOrigin authLoginReq apiUsersReq
     (by decide) (by decide) (by decide) (by decide)
     (by decide) (by decide) (by decide) (by decide)).2⟩

/-- A same-origin request whose pathname is exactly `/api/auth`. -/
def authNoSlashReq : Request :=
  { url := { origin := "https://app.example", pathname := "/api/auth",
             href := "https://app.example/api/auth" }
    destination := "", mode := "" }

/-- C8: the auth exclusion requires the trailing slash: a same-origin
request whose pathname is exactly `/api/auth` is accepted by the
`api-cache` matcher, is classified NetworkFirst with `api-cache`, and a
successful in-time 200 network response for it is written to `api-cache`;
only pathnames starting with `/api/auth/` are excluded. -/
theorem c8_auth_no_trailing_slash_is_cached (selfOrigin : String)
    (req : Request)
    (ho : req.url.origin = selfOrigin) (hp : req.url.pathname = "/api/auth")
    (hg : googleFontsMatcher req = false) (hj : jsdelivrMatcher req = false) :
    apiCacheMatcher selfOrigin req = true ∧
    classify selfOrigin req = Classification.matched Handler.NetworkFirst "api-cache" ∧
    (∀ (net : Net) (now : Nat) (c : CacheState) (d : Nat) (r : Response),
      net req = NetBehavior.responds d r → d ≤ 3 → r.status = 200 →
      (route selfOrigin net now c req).writes = ["api-cache"]) := by
  have hapi : apiCacheMatcher selfOrigin req = true := by
    simp only [apiCacheMatcher, ho, hp]
    simp
    decide
  have hmatch : matchRule selfOrigin req runtimeCaching = some apiCacheRule := by
    simp [matchRule, runtimeCaching, googleFontsRule, jsdelivrRule, apiCacheRule,
      hg, hj, hapi]
  refine ⟨hapi, ?_, ?_⟩
  · simp [classify, hmatch, apiCacheRule]
  · intro net now c d r hnet hd hst
    have hto : netFetchTimeout net (some 3) req = some r := by
      unfold netFetchTimeout
      rw [hnet]
      simp [hd]
    unfold route
    rw [applyFallback_writes, hmatch]
    unfold execute
    simp only [apiCacheRule, hto, storeIfAllowed, statusAllowed, hst]
    simp

/-- Witness for C8 at the concrete same-origin `/api/auth` request with a
network answering 200 within the timeout. -/
theorem c8_auth_no_trailing_slash_is_cached_witness :
    (authNoSlashReq.url.origin = demoOrigin ∧
     authNoSlashReq.url.pathname = "/api/auth" ∧
     googleFontsMatcher authNoSlashReq = false ∧
     jsdelivrMatcher authNoSlashReq = false ∧
     okNet ⟨200, "auth"⟩ authNoSlashReq = NetBehavior.responds 1 ⟨200, "auth"⟩) ∧
    (apiCacheMatcher demoOrigin authNoSlashReq = true ∧
     (route demoOrigin (okNet ⟨200, "auth"⟩) 0 [] authNoSlashReq).writes =
       ["api-cache"]) := by
  have h := c8_auth_no_trailing_slash_is_cached demoOrigin authNoSlashReq
    (by decide) (by decide) (by decide) (by decide)
  exact ⟨by decide, h.1,
    h.2.2 (okNet ⟨200, "auth"⟩) 0 [] 1 ⟨200, "auth"⟩ rfl (by decide) rfl⟩

/-- A same-origin request for `/logo.png` (lowercase extension). -/
def pngReq : Request :=
  { url := { origin := "https://app.example", pathname := "/logo.png",
             href := "https://app.example/logo.png" }
    destination := "image", mode := "" }

/-- The same request with an uppercase `.PNG` extension. -/
def pngUpperReq : Request :=
  { url := { origin := "https://app.example", pathname := "/logo.PNG",
             href := "https://app.example/logo.PNG" }
    destination := "image", mode := "" }

/-- An uppercase-spelled Google Fonts request. -/
def upperFontsReq : Request :=
  { url := { origin := "HTTPS://FONTS.GSTATIC.COM",
             pathname := "/font.woff2",
             href := "HTTPS://FONTS.GSTATIC.COM/font.woff2" }
    destination := "font", mode := "" }

/-- C9: the images matcher is case-sensitive on the extension: a
same-origin `/logo.png` request matches the images CacheFirst rule while
an otherwise identical `/logo.PNG` request does not (and matches no rule at
all), whereas the google-fonts pattern carries the `i` flag and accepts an
uppercase-spelled URL. -/
theorem c9_images_matcher_case_sensitive (selfOrigin : String)
    (req reqU reqF : Request)
    (ho : req.url.origin = selfOrigin) (hp : req.url.pathname = "/logo.png")
    (hg : googleFontsMatcher req = false) (hj : jsdelivrMatcher req = false)
    (hoU : reqU.url.origin = selfOrigin) (hpU : reqU.url.pathname = "/logo.PNG")
    (hgU : googleFontsMatcher reqU = false) (hjU : jsdelivrMatcher reqU = false)
    (hF : reqF.url.href = "HTTPS://FONTS.GSTATIC.COM/font.woff2") :
    imagesMatcher selfOrigin req = true ∧
    classify selfOrigin req = Classification.matched Handler.CacheFirst "images" ∧
    imagesMatcher selfOrigin reqU = false ∧
    classify selfOrigin reqU = Classification.noMatch ∧
    googleFontsMatcher reqF = true := by
  have himg : imagesMatcher selfOrigin req = true := by
    simp only [imagesMatcher, ho, hp]
    simp
    decide
  have hapi : apiCacheMatcher selfOrigin req = false := by
    simp only [apiCacheMatcher, hp]
    split
    · rfl
    · decide
  have himgU : imagesMatcher selfOrigin reqU = false := by
    simp only [imagesMatcher, hpU]
    split
    · rfl
    · decide
  have hapiU : apiCacheMatcher selfOrigin reqU = false := by
    simp only [apiCacheMatcher, hpU]
    split
    · rfl
    · decide
  have hfonts : googleFontsMatcher reqF = true := by
    simp only [googleFontsMatcher, hF]
    decide
  refine ⟨himg, ?_, himgU, ?_, hfonts⟩
  · simp [classify, matchRule, runtimeCaching, googleFontsRule, jsdelivrRule,
      apiCacheRule, imagesRule, hg, hj, hapi, himg]
  · simp [classify, matchRule, runtimeCaching, googleFontsRule, jsdelivrRule,
      apiCacheRule, imagesRule, hgU, hjU, hapiU, himgU]

/-- Witness for C9 at the concrete `/logo.png`, `/logo.PNG` and uppercase
fonts requests. -/
theorem c9_images_matcher_case_sensitive_witness :
    (pngReq.url.origin = demoOrigin ∧ pngReq.url.pathname = "/logo.png" ∧
     googleFontsMatcher pngReq = false ∧ jsdelivrMatcher pngReq = false ∧
     pngUpperReq.url.origin = demoOrigin ∧
     pngUpperReq.url.pathname = "/logo.PNG" ∧
     googleFontsMatcher pngUpperReq = false ∧
     jsdelivrMatcher pngUpperReq = false ∧
     upperFontsReq.url.href = "HTTPS://FONTS.GSTATIC.COM/font.woff2") ∧
    (imagesMatcher demoOrigin pngReq = true ∧
     classify demoOrigin pngReq = Classification.matched Handler.CacheFirst "images" ∧
     imagesMatcher demoOrigin pngUpperReq = false ∧
     classify demoOrigin pngUpperReq = Classification.noMatch ∧
     googleFontsMatcher upperFontsReq = true) :=
  ⟨by decide,
   c9_images_matcher_case_sensitive demoOrigin pngReq pngUpperReq upperFontsReq
     (by decide) (by decide) (by decide) (by decide) (by decide) (by decide)
     (by decide) (by decide) (by decide)⟩

theorem applyFallback_response_some (req : Request) (r : RouteResult)
    (x : Response) (h : r.response = some x) :
    (applyFallback req r).response = some x := by
  simp [applyFallback, h]

/-- Cached 200 entry for `/api/users`, inserted at time 0. -/
def usersCachedEntry : Entry := { response := { status := 200, body := "cached-users" }, insertedAt := 0 }

/-- A cache storage holding only that `api-cache` entry. -/
def usersCache : CacheState := [(("api-cache", keyOf apiUsersReq), usersCachedEntry)]

/-- C4: for a request matched by the NetworkFirst `api-cache` rule, if the
network does not respond within the 3-second timeout and a cache entry for
the request is present in `api-cache`, the router returns that cached entry
(and hence not an error). -/
theorem c4_network_first_timeout_serves_cache (selfOrigin : String) (net : Net)
    (now : Nat) (c : CacheState) (req : Request) (e : Entry)
    (hm : matchRule selfOrigin req runtimeCaching = some apiCacheRule)
    (ht : netFetchTimeout net (some 3) req = none)
    (he : lookupEntry "api-cache" (keyOf req) c = some e) :
    (route selfOrigin net now c req).response = some e.response := by
  have hex : (execute apiCacheRule net now c req).response = some e.response := by
    unfold execute
    simp only [apiCacheRule, ht, he]
  unfold route
  rw [hm]
  exact applyFallback_response_some req _ _ hex

/-- Witness for C4: `/api/users` with a hanging network and a cached entry. -/
theorem c4_network_first_timeout_serves_cache_witness :
    (matchRule demoOrigin apiUsersReq runtimeCaching = some apiCacheRule ∧
     netFetchTimeout hangNet (some 3) apiUsersReq = none ∧
     lookupEntry "api-cache" (keyOf apiUsersReq) usersCache = some usersCachedEntry) ∧
    (route demoOrigin hangNet 0 usersCache apiUsersReq).response =
      some usersCachedEntry.response :=
  ⟨⟨rfl, rfl, by decide⟩,
   c4_network_first_timeout_serves_cache demoOrigin hangNet 0 usersCache
     apiUsersReq usersCachedEntry rfl rfl (by decide)⟩

/-- C6: for a request matched by a CacheFirst rule, if the named cache
holds an unexpired entry for the request, the router returns that cached
entry unchanged even with no network available, leaves the cache storage
unchanged, and issues no network fetch. -/
theorem c6_cache_first_serves_unexpired_entry (selfOrigin : String)
    (net : Net) (now : Nat) (c : CacheState) (req : Request) (r : Rule)
    (e : Entry)
    (hm : matchRule selfOrigin req runtimeCaching = some r)
    (hh : r.handler = Handler.CacheFirst)
    (he : lookupEntry r.cacheName (keyOf req) c = some e)
    (hu : unexpired r.expiration now e = true) :
    (route selfOrigin net now c req).response = some e.response ∧
    (route selfOrigin net now c req).cache = c ∧
    (route selfOrigin net now c req).fetched = false := by
  have hex : execute r net now c req =
      { response := some e.response, cache := c, reads := [r.cacheName],
        writes := [], fetched := false } := by
    unfold execute
    rw [hh]
    simp only [he, hu, if_true]
  unfold route
  rw [hm]
  dsimp only
  rw [hex]
  simp [applyFallback]

/-- A cached image entry for `/logo.png`, inserted at time 0. -/
def pngEntry : Entry := { response := { status := 200, body := "png-bytes" }, insertedAt := 0 }

/-- A cache storage holding only that `images` entry. -/
def pngCache : CacheState := [(("images", keyOf pngReq), pngEntry)]

/-- Witness for C6: `/logo.png` served from the `images` cache while every
network fetch fails. -/
theorem c6_cache_first_serves_unexpired_entry_witness :
    (matchRule demoOrigin pngReq runtimeCaching = some imagesRule ∧
     imagesRule.handler = Handler.CacheFirst ∧
     lookupEntry imagesRule.cacheName (keyOf pngReq) pngCache = some pngEntry ∧
     unexpired imagesRule.expiration 100 pngEntry = true) ∧
    ((route demoOrigin failNet 100 pngCache pngReq).response = some pngEntry.response ∧
     (route demoOrigin failNet 100 pngCache pngReq).cache = pngCache ∧
     (route demoOrigin failNet 100 pngCache pngReq).fetched = false) :=
  ⟨⟨rfl, rfl, by decide, by decide⟩,
   c6_cache_first_serves_unexpired_entry demoOrigin failNet 100 pngCache pngReq
     imagesRule pngEntry rfl rfl (by decide) (by decide)⟩

/-- A navigation (destination `document`) request to `/api/users`. -/
def navUsersReq : Request :=
  { url := { origin := "https://app.example", pathname := "/api/users",
             href := "https://app.example/api/users" }
    destination := "document", mode := "navigate" }

/-- A cache storage holding an `api-cache` entry for that navigation. -/
def navUsersCache : CacheState :=
  [(("api-cache", keyOf navUsersReq), usersCachedEntry)]

/-- Counterexample to C3 as stated: a navigation request (destination
`document`) to `/api/users` with every network fetch failing is answered
from `api-cache` by the NetworkFirst rule, not with the offline fallback
document, so not every navigation request under a failing network yields
the fallback. -/
theorem c3_counterexample_cached_navigation :
    navUsersReq.destination = "document" ∧
    failNet navUsersReq = NetBehavior.fails ∧
    (route demoOrigin failNet 0 navUsersCache navUsersReq).response =
      some usersCachedEntry.response ∧
    (route demoOrigin failNet 0 navUsersCache navUsersReq).response ≠
      some offlineResponse := by
  refine ⟨rfl, rfl, ?_, ?_⟩ <;> decide

/-- C3 (amended): for every request handled NetworkOnly (pass-through, no
rule matches) while the network fetch fails, a navigation request
(destination `document`) gets the configured offline fallback document and
a non-navigation request gets an error with no fallback substituted. -/
theorem c3_network_only_fallback (selfOrigin : String) (net : Net)
    (now : Nat) (c : CacheState) (req : Request)
    (hm : matchRule selfOrigin req runtimeCaching = none)
    (hn : netFetch net req = none) :
    (req.destination = "document" →
      (route selfOrigin net now c req).response = some offlineResponse) ∧
    (req.destination ≠ "document" →
      (route selfOrigin net now c req).response = none) := by
  unfold route
  rw [hm]
  unfold passThrough
  rw [hn]
  constructor
  · intro hd
    simp [applyFallback, fallbackMatches, hd]
  · intro hd
    simp [applyFallback, fallbackMatches, hd]

/-- A same-origin navigation request to `/dashboard` (matches no rule). -/
def navDashboardReq : Request :=
  { url := { origin := "https://app.example", pathname := "/dashboard",
             href := "https://app.example/dashboard" }
    destination := "document", mode := "navigate" }

/-- A same-origin script request to `/main.js` (matches no rule). -/
def scriptPassReq : Request :=
  { url := { origin := "https://app.example", pathname := "/main.js",
             href := "https://app.example/main.js" }
    destination := "script", mode := "" }

/-- Witness for the amended C3: a failing network on an unmatched
navigation yields the offline document and on an unmatched script yields
an error. -/
theorem c3_network_only_fallback_witness :
    (matchRule demoOrigin navDashboardReq runtimeCaching = none ∧
     netFetch failNet navDashboardReq = none ∧
     navDashboardReq.destination = "document" ∧
     matchRule demoOrigin scriptPassReq runtimeCaching = none ∧
     netFetch failNet scriptPassReq = none ∧
     scriptPassReq.destination ≠ "document") ∧
    ((route demoOrigin failNet 0 [] navDashboardReq).response =
       some offlineResponse ∧
     (route demoOrigin failNet 0 [] scriptPassReq).response = none) :=
  ⟨⟨rfl, rfl, rfl, rfl, rfl, by decide⟩,
   (c3_network_only_fallback demoOrigin failNet 0 [] navDashboardReq
      rfl rfl).1 rfl,
   (c3_network_only_fallback demoOrigin failNet 0 [] scriptPassReq
      rfl rfl).2 (by decide)⟩

theorem applyFallback_response_none (req : Request) (r : RouteResult)
    (hf : fallbackMatches req = false) (h : r.response = none) :
    (applyFallback req r).response = none := by
  simp [applyFallback, h, hf]

/-- Counterexample to C5 as stated: a navigation request to `/api/users`
with no cache entry and a network that never responds does not surface a
failed request — the configured offline fallback is substituted, because
the fallback entry applies to `document` destinations. -/
theorem c5_counterexample_fallback_masks_double_miss :
    matchRule demoOrigin navUsersReq runtimeCaching = some apiCacheRule ∧
    lookupEntry "api-cache" (keyOf navUsersReq) [] = none ∧
    netFetchTimeout hangNet (some 3) navUsersReq = none ∧
    (route demoOrigin hangNet 0 [] navUsersReq).response = some offlineResponse :=
  ⟨rfl, by decide, rfl, by decide⟩

/-- C5 (amended): for a request matched by the NetworkFirst `api-cache`
rule to which the configured fallback does not apply (destination is not
`document`), a genuine double miss — no cache entry and a network fetch
that does not succeed within the timeout — surfaces a failed request, and
it is the only case in which an error propagates out of the router. -/
theorem c5_double_miss_is_only_error (selfOrigin : String) (net : Net)
    (now : Nat) (c : CacheState) (req : Request)
    (hm : matchRule selfOrigin req runtimeCaching = some apiCacheRule)
    (hd : req.destination ≠ "document") :
    ((lookupEntry "api-cache" (keyOf req) c = none ∧
      netFetchTimeout net (some 3) req = none) →
      (route selfOrigin net now c req).response = none) ∧
    ((route selfOrigin net now c req).response = none →
      lookupEntry "api-cache" (keyOf req) c = none ∧
      netFetchTimeout net (some 3) req = none) := by
  have hf : fallbackMatches req = false := by
    simp [fallbackMatches, hd]
  have hroute : route selfOrigin net now c req =
      applyFallback req (execute apiCacheRule net now c req) := by
    unfold route
    rw [hm]
  constructor
  · rintro ⟨he, hto⟩
    have hex : (execute apiCacheRule net now c req).response = none := by
      unfold execute
      simp only [apiCacheRule, hto, he]
    rw [hroute]
    exact applyFallback_response_none req _ hf hex
  · intro habs
    by_cases hto : netFetchTimeout net (some 3) req = none
    · by_cases he : lookupEntry "api-cache" (keyOf req) c = none
      · exact ⟨he, hto⟩
      · obtain ⟨e, he2⟩ := Option.ne_none_iff_exists'.mp he
        have hex : (execute apiCacheRule net now c req).response = some e.response := by
          unfold execute
          simp only [apiCacheRule, hto, he2]
        rw [hroute, applyFallback_response_some req _ _ hex] at habs
        cases habs
    · obtain ⟨r, hto2⟩ := Option.ne_none_iff_exists'.mp hto
      have hex : (execute apiCacheRule net now c req).response = some r := by
        unfold execute
        simp only [apiCacheRule, hto2]
      rw [hroute, applyFallback_response_some req _ _ hex] at habs
      cases habs

/-- Witness for the amended C5: a non-navigation `/api/users` fetch with an
empty cache and a hanging network surfaces the failure. -/
theorem c5_double_miss_is_only_error_witness :
    (matchRule demoOrigin apiUsersReq runtimeCaching = some apiCacheRule ∧
     apiUsersReq.destination ≠ "document" ∧
     lookupEntry "api-cache" (keyOf apiUsersReq) [] = none ∧
     netFetchTimeout hangNet (some 3) apiUsersReq = none) ∧
    (route demoOrigin hangNet 0 [] apiUsersReq).response = none :=
  ⟨⟨rfl, by decide, by decide, rfl⟩,
   (c5_double_miss_is_only_error demoOrigin hangNet 0 [] apiUsersReq rfl
     (by decide)).1 ⟨by decide, rfl⟩⟩

/-- The effective `maxEntries` capacity of an expiration policy (absent
policy imposes no bound). -/
def expCap : Option Expiration → Nat
  | none => 1
  | some ex => ex.maxEntries

theorem lookupEntry_cachePut_self (exp : Option Expiration) (name key : String)
    (e : Entry) (c : CacheState) (hcap : 0 < expCap exp) :
    lookupEntry name key (cachePut exp name key e c) = some e := by
  cases exp with
  | none => simp [cachePut, lookupEntry]
  | some ex =>
    cases hex : ex.maxEntries with
    | zero =>
      rw [expCap, hex] at hcap
      exact absurd hcap (by simp)
    | succ m =>
      simp [cachePut, hex, trimCache, lookupEntry]

theorem swr_hit_response (rule : Rule) (net : Net) (now : Nat)
    (c : CacheState) (req : Request) (e : Entry)
    (hh : rule.handler = Handler.StaleWhileRevalidate)
    (he : lookupEntry rule.cacheName (keyOf req) c = some e) :
    (execute rule net now c req).response = some e.response := by
  unfold execute
  rw [hh]
  simp only [he]
  cases hn : netFetch net req <;> simp

theorem swr_miss_response (rule : Rule) (net : Net) (now : Nat)
    (c : CacheState) (req : Request)
    (hh : rule.handler = Handler.StaleWhileRevalidate)
    (hm : lookupEntry rule.cacheName (keyOf req) c = none) :
    (execute rule net now c req).response = netFetch net req := by
  unfold execute
  rw [hh]
  simp only [hm]
  cases hn : netFetch net req <;> simp

/-- C7: for a request handled StaleWhileRevalidate (an unfiltered SWR rule
with positive capacity) with cache entry `a` present while the network
would return `b`: the immediate response is `a` whatever the network does,
the cache is refreshed to `b`, a subsequent identical request returns `b`,
and with no cache entry present the router waits for the network once. -/
theorem c7_stale_while_revalidate (rule : Rule) (net net2 : Net)
    (now now2 : Nat) (c : CacheState) (req : Request) (a : Entry)
    (b : Response) (d : Nat)
    (hh : rule.handler = Handler.StaleWhileRevalidate)
    (hs : rule.cacheableStatuses = none)
    (hcap : 0 < expCap rule.expiration)
    (ha : lookupEntry rule.cacheName (keyOf req) c = some a)
    (hb : net req = NetBehavior.responds d b) :
    (execute rule net now c req).response = some a.response ∧
    lookupEntry rule.cacheName (keyOf req) (execute rule net now c req).cache =
      some { response := b, insertedAt := now } ∧
    (execute rule net2 now2 (execute rule net now c req).cache req).response =
      some b ∧
    (∀ (net3 : Net) (c3 : CacheState),
      lookupEntry rule.cacheName (keyOf req) c3 = none →
      (execute rule net3 now c3 req).response = netFetch net3 req) := by
  have hnf : netFetch net req = some b := by
    unfold netFetch
    rw [hb]
  have hcache : (execute rule net now c req).cache =
      cachePut rule.expiration rule.cacheName (keyOf req)
        { response := b, insertedAt := now } c := by
    unfold execute
    rw [hh]
    simp only [ha, hnf, storeIfAllowed, statusAllowed, hs]
    simp
  have hlook : lookupEntry rule.cacheName (keyOf req)
      (execute rule net now c req).cache =
      some { response := b, insertedAt := now } := by
    rw [hcache]
    exact lookupEntry_cachePut_self _ _ _ _ _ hcap
  refine ⟨swr_hit_response rule net now c req a hh ha, hlook,
    swr_hit_response rule net2 now2 _ req _ hh hlook,
    fun net3 c3 hmiss => swr_miss_response rule net3 now c3 req hh hmiss⟩

/-- The stale cached script entry `A`, inserted at time 0. -/
def swrOldEntry : Entry := { response := { status := 200, body := "A" }, insertedAt := 0 }

/-- A `static-resources` cache holding the stale entry for `/main.js`. -/
def swrCache : CacheState :=
  [(("static-resources", keyOf scriptPassReq), swrOldEntry)]

/-- Witness for C7 on the `static-resources` StaleWhileRevalidate route of
the `src/init.sh` worker: stale `A` served now, fresh `B` served next. -/
theorem c7_stale_while_revalidate_witness :
    (staticResourcesRule.handler = Handler.StaleWhileRevalidate ∧
     staticResourcesRule.cacheableStatuses = none ∧
     0 < expCap staticResourcesRule.expiration ∧
     lookupEntry staticResourcesRule.cacheName (keyOf scriptPassReq) swrCache =
       some swrOldEntry ∧
     okNet { status := 200, body := "B" } scriptPassReq =
       NetBehavior.responds 1 { status := 200, body := "B" }) ∧
    ((execute staticResourcesRule (okNet { status := 200, body := "B" }) 10
        swrCache scriptPassReq).response = some swrOldEntry.response ∧
     (execute staticResourcesRule failNet 20
        (execute staticResourcesRule (okNet { status := 200, body := "B" }) 10
          swrCache scriptPassReq).cache scriptPassReq).response =
       some { status := 200, body := "B" }) := by
  have h := c7_stale_while_revalidate staticResourcesRule
    (okNet { status := 200, body := "B" }) failNet 10 20 swrCache scriptPassReq
    swrOldEntry { status := 200, body := "B" } 1 rfl rfl (by decide) (by decide) rfl
  exact ⟨⟨rfl, rfl, by decide, by decide, rfl⟩, h.1, h.2.2.1⟩

/-- Every entry stored under the `api-cache` name has HTTP status 0 or 200. -/
def apiCacheInv (c : CacheState) : Prop :=
  ∀ p ∈ c, p.1.1 = "api-cache" →
    p.2.response.status = 0 ∨ p.2.response.status = 200

theorem mem_trimCache (name : String) (p : (String × String) × Entry) :
    ∀ (n : Nat) (c : CacheState), p ∈ trimCache name n c → p ∈ c := by
  intro n c
  induction c generalizing n with
  | nil => intro h; exact absurd h (by simp [trimCache])
  | cons q rest ih =>
    intro h
    unfold trimCache at h
    by_cases hq : (q.1.1 == name) = true
    · rw [if_pos hq] at h
      cases n with
      | zero => exact List.mem_cons_of_mem q (ih 0 h)
      | succ m =>
        rcases List.mem_cons.mp h with heq | hmem
        · exact heq ▸ List.mem_cons_self q rest
        · exact List.mem_cons_of_mem q (ih m hmem)
    · rw [if_neg hq] at h
      rcases List.mem_cons.mp h with heq | hmem
      · exact heq ▸ List.mem_cons_self q rest
      · exact List.mem_cons_of_mem q (ih n hmem)

theorem mem_cachePut (exp : Option Expiration) (name key : String) (e : Entry)
    (c : CacheState) (p : (String × String) × Entry)
    (h : p ∈ cachePut exp name key e c) :
    p = ((name, key), e) ∨ p ∈ c := by
  have base : p ∈ ((name, key), e) :: removeEntry name key c →
      p = ((name, key), e) ∨ p ∈ c := by
    intro hb
    rcases List.mem_cons.mp hb with heq | hmem
    · exact Or.inl heq
    · exact Or.inr (List.mem_filter.mp hmem).1
  cases exp with
  | none => exact base h
  | some ex =>
    exact base (mem_trimCache name p ex.maxEntries _ h)

theorem storeIfAllowed_preserves_inv (rule : Rule) (now : Nat) (r : Response)
    (key : String) (c : CacheState)
    (hr : rule.cacheName ≠ "api-cache" ∨ rule.cacheableStatuses = some [0, 200])
    (hc : apiCacheInv c) : apiCacheInv (storeIfAllowed rule now r key c).1 := by
  unfold storeIfAllowed
  by_cases hs : statusAllowed rule.cacheableStatuses r.status = true
  · rw [if_pos hs]
    unfold apiCacheInv
    intro p hp hname
    rcases mem_cachePut _ _ _ _ _ _ hp with heq | hmem
    · rcases hr with hne | hfil
      · rw [heq] at hname
        exact absurd hname hne
      · rw [hfil] at hs
        have : r.status = 0 ∨ r.status = 200 := by
          simpa [statusAllowed] using hs
        rw [heq]
        exact this
    · exact hc p hmem hname
  · rw [if_neg hs]
    exact hc

theorem execute_preserves_inv (rule : Rule) (net : Net) (now : Nat)
    (c : CacheState) (req : Request)
    (hr : rule.cacheName ≠ "api-cache" ∨ rule.cacheableStatuses = some [0, 200])
    (hc : apiCacheInv c) : apiCacheInv (execute rule net now c req).cache := by
  unfold execute
  cases rule.handler <;> dsimp only <;> (repeat' split) <;> dsimp only <;>
    first
      | exact hc
      | exact storeIfAllowed_preserves_inv rule now _ _ c hr hc

theorem matchRule_mem (selfOrigin : String) (req : Request) :
    ∀ (rs : List Rule) (r : Rule), matchRule selfOrigin req rs = some r → r ∈ rs := by
  intro rs
  induction rs with
  | nil => intro r h; cases h
  | cons q rest ih =>
    intro r h
    unfold matchRule at h
    by_cases hq : q.matcher selfOrigin req = true
    · rw [if_pos hq] at h
      cases h
      exact List.mem_cons_self q rest
    · rw [if_neg hq] at h
      exact List.mem_cons_of_mem q (ih r h)

/-- C10: the `cacheableResponse` filter `{ statuses: [0, 200] }` of the
`api-cache` rule keeps the invariant that every entry of `api-cache` has
status 0 or 200: the invariant is preserved by every routing operation,
and a network response with any other status leaves the cache storage
unchanged. -/
theorem c10_api_cache_status_invariant (selfOrigin : String) (net : Net)
    (now : Nat) (c : CacheState) (req : Request)
    (hc : apiCacheInv c) :
    apiCacheInv (route selfOrigin net now c req).cache ∧
    (∀ (r : Response) (d : Nat),
      matchRule selfOrigin req runtimeCaching = some apiCacheRule →
      net req = NetBehavior.responds d r → d ≤ 3 →
      r.status ≠ 0 → r.status ≠ 200 →
      (route selfOrigin net now c req).cache = c) := by
  constructor
  · unfold route
    rw [applyFallback_cache]
    cases hm : matchRule selfOrigin req runtimeCaching with
    | none =>
      dsimp only
      unfold passThrough
      cases netFetch net req <;> exact hc
    | some r =>
      have hmem := matchRule_mem selfOrigin req runtimeCaching r hm
      have hr : r.cacheName ≠ "api-cache" ∨ r.cacheableStatuses = some [0, 200] := by
        simp only [runtimeCaching, List.mem_cons, List.not_mem_nil, or_false] at hmem
        rcases hmem with h1 | h1 | h1 | h1 <;> subst h1
        · exact Or.inl (by decide)
        · exact Or.inl (by decide)
        · exact Or.inr rfl
        · exact Or.inl (by decide)
      dsimp only
      exact execute_preserves_inv r net now c req hr hc
  · intro r d hm hnet hd h0 h200
    have hto : netFetchTimeout net (some 3) req = some r := by
      unfold netFetchTimeout
      rw [hnet]
      simp [hd]
    have hsa : statusAllowed (some [0, 200]) r.status = false := by
      simp [statusAllowed, h0, h200]
    unfold route
    rw [applyFallback_cache, hm]
    dsimp only
    unfold execute
    simp only [apiCacheRule, hto, storeIfAllowed, hsa]
    simp

/-- Witness for C10: a 404 network response for `/api/users` leaves the
populated `api-cache` untouched and the invariant intact. -/
theorem c10_api_cache_status_invariant_witness :
    apiCacheInv usersCache ∧
    apiCacheInv (route demoOrigin (okNet { status := 404, body := "nope" }) 0
      usersCache apiUsersReq).cache ∧
    (route demoOrigin (okNet { status := 404, body := "nope" }) 0
      usersCache apiUsersReq).cache = usersCache := by
  have hinv : apiCacheInv usersCache := by
    intro p hp
    simp only [usersCache, List.mem_singleton] at hp
    subst hp
    intro _
    exact Or.inr rfl
  have h := c10_api_cache_status_invariant demoOrigin
    (okNet { status := 404, body := "nope" }) 0 usersCache apiUsersReq hinv
  exact ⟨hinv, h.1,
    h.2 { status := 404, body := "nope" } 1 rfl rfl (by decide) (by decide)
      (by decide)⟩
